import Mathlib

/-!
Verification development for the passive network-traffic HTTP-observability
engine of the devine-eyes repository.  The definitions below are a shallow
embedding of `src/backend/services/src/network_monitor_service.rs`:

* raw frames are lists of byte values (`List Nat`, each element a `u8` value);
* timestamps (`chrono::DateTime<Utc>`) are modelled as integer Unix
  milliseconds (`Int`); `chrono::Duration::seconds 30` is `30000`;
* `response_time_ms` is an `f64` in the source but always holds the integral
  value `num_milliseconds() as f64`, so it is modelled as an `Int`;
* the shared `HashMap`s behind `RwLock`s are modelled as explicit state that
  every operation takes and returns (`String → Option _` for the pending
  table and result store, an association list for the container-IP cache);
* the Docker runtime is modelled as oracles: the outcome of the
  `list_containers` call (which may time out or fail) and a function giving
  the result of `get_container_network_info` per container id.
-/

namespace NetworkMonitor

/-- The shared `eyes_devine_shared::HttpRequest` record emitted for a matched
request/response pair. -/
structure HttpRequest where
  container_id : String
  container_name : String
  endpoint : String
  method : String
  http_status : Nat
  response_time_ms : Int
  timestamp : Int
  deriving DecidableEq

/-- The `PendingRequest` struct from the source: a parsed HTTP request waiting for its
response, keyed by connection id. -/
structure PendingRequest where
  container_id : String
  container_name : String
  method : String
  endpoint : String
  request_timestamp : Int
  deriving DecidableEq

/-- The pending-request table (`pending_requests` field), a `HashMap` from
connection id to `PendingRequest`, modelled as a function. -/
def PendingMap : Type := String → Option PendingRequest

/-- Dotted-quad rendering of the IPv4 address starting at
byte offset `off`. -/
def ipString (data : List Nat) (off : Nat) : String :=
  s!"{data.getD off 0}.{data.getD (off + 1) 0}.{data.getD (off + 2) 0}.{data.getD (off + 3) 0}"

/-- Body of `extract_connection_info` after the link-layer offsets have been
fixed: the source binds `(ip_header_start, ip_protocol_offset, src_ip_offset,
dst_ip_offset)` from the SLL test and then runs this common code.  Returns
`(connection_id, http payload, is_response)`.  `data.getD o 0 / 16 * 4` is
`((byte & 0xF0) >> 4) * 4` for a byte value. -/
def extractWithOffsets (data : List Nat)
    (ip_header_start ip_protocol_offset src_ip_offset dst_ip_offset : Nat) :
    Option (String × List Nat × Bool) :=
  if data.length < dst_ip_offset + 4 then none
  else
    let ip_protocol := data.getD ip_protocol_offset 0
    if ip_protocol ≠ 6 then none
    else
      let src_ip := ipString data src_ip_offset
      let dst_ip := ipString data dst_ip_offset
      let tcp_start := ip_header_start + 20
      if data.length < tcp_start + 4 then none
      else
        let src_port := data.getD tcp_start 0 * 256 + data.getD (tcp_start + 1) 0
        let dst_port := data.getD (tcp_start + 2) 0 * 256 + data.getD (tcp_start + 3) 0
        let is_response := dst_port == 80 || dst_port == 443 || dst_port == 8080 ||
          dst_port == 8443 || dst_port == 8000 || dst_port == 3000 ||
          dst_port == 5000 || dst_port == 9000
        let connection_id :=
          if src_port < dst_port then
            s!"{src_ip}:{src_port}:{dst_ip}:{dst_port}"
          else
            s!"{dst_ip}:{dst_port}:{src_ip}:{src_port}"
        let tcp_header_len_offset := tcp_start + 12
        if data.length < tcp_header_len_offset + 1 then none
        else
          let tcp_header_len := data.getD tcp_header_len_offset 0 / 16 * 4
          let http_start := tcp_start + tcp_header_len
          if data.length > http_start then
            some (connection_id, data.drop http_start, is_response)
          else none

/-- Embedding of `extract_connection_info`: reject frames shorter than 34 bytes, classify
the link layer from the first two bytes (both zero ⇒ SLL, 16-byte header;
otherwise Ethernet, 14-byte header) and extract connection id, HTTP payload
and the port-heuristic direction flag with the matching offsets. -/
def extract_connection_info (data : List Nat) : Option (String × List Nat × Bool) :=
  if data.length < 34 then none
  else
    let is_sll := data.getD 0 0 == 0 && data.getD 1 0 == 0
    if is_sll then extractWithOffsets data 16 25 28 32
    else extractWithOffsets data 14 23 26 30

/-- Embedding of `handle_http_request`: sweep pending entries whose timestamp is not
strictly newer than `now - 30s`, then insert a fresh pending entry for the
connection id, overwriting any previous one.  `now` is the single call
instant (the source reads the clock for the new entry and for the sweep
cutoff microseconds apart inside one call). -/
def handle_http_request (m : PendingMap) (now : Int)
    (connection_id container_id container_name method path : String) : PendingMap :=
  let pending : PendingRequest :=
    { container_id := container_id, container_name := container_name,
      method := method, endpoint := path, request_timestamp := now }
  let cutoff := now - 30000
  let swept : PendingMap := fun k =>
    match m k with
    | some req => if req.request_timestamp > cutoff then some req else none
    | none => none
  fun k => if k = connection_id then some pending else swept k

/-- The identity-healing step at the top of `handle_http_response`: if the
pending entry's container id is `"unknown"` and the response side supplies a
concrete id, substitute the response's identity. -/
def substitute_identity (p : PendingRequest) (container_id container_name : String) :
    PendingRequest :=
  if p.container_id = "unknown" ∧ container_id ≠ "unknown" then
    { p with container_id := container_id, container_name := container_name }
  else p

/-- Result of one `handle_http_response` call: the pending table afterwards,
the `HttpRequest` value the source constructs on a match (if any), and the
record it hands to persistence — database insert or the in-memory
`store_request` fallback — as `(container key, record)`; `stored = none`
means nothing is written anywhere. -/
structure ResponseOutcome where
  pending_after : PendingMap
  constructed : Option HttpRequest
  stored : Option (String × HttpRequest)

/-- Embedding of `handle_http_response`: remove the pending entry for the connection id
(if none, do nothing), heal the identity from the response side, build the
`HttpRequest` with the request-side timestamp and the clamped latency, and
store it only when the final container id is concrete. -/
def handle_http_response (m : PendingMap) (now : Int)
    (connection_id container_id container_name : String) (status_code : Option Nat) :
    ResponseOutcome :=
  match m connection_id with
  | none => ⟨m, none, none⟩
  | some pending0 =>
    let pending_map : PendingMap := fun k => if k = connection_id then none else m k
    let pending := substitute_identity pending0 container_id container_name
    let final_container_id :=
      if pending.container_id ≠ "unknown" then pending.container_id else container_id
    let final_container_name :=
      if pending.container_name ≠ "unknown" then pending.container_name else container_name
    let latency_ms := now - pending.request_timestamp
    let request : HttpRequest :=
      { container_id := final_container_id, container_name := final_container_name,
        endpoint := pending.endpoint, method := pending.method,
        http_status := status_code.getD 200,
        response_time_ms := max latency_ms 0,
        timestamp := pending.request_timestamp }
    let stored :=
      if final_container_id ≠ "unknown" then some (final_container_id, request) else none
    ⟨pending_map, some request, stored⟩

/-- The per-container body of `store_request`: push the record, then drop the
oldest entry (`Vec::remove(0)`) when the buffer holds more than 1000. -/
def pushTrim (buf : List HttpRequest) (request : HttpRequest) : List HttpRequest :=
  let pushed := buf ++ [request]
  if pushed.length > 1000 then pushed.tail else pushed

/-- Embedding of `store_request` over the whole `captured_requests` map: update the bucket
of `container_id` (`entry(..).or_insert_with(Vec::new)` makes the missing
bucket the empty list). -/
def store_request (requests : String → List HttpRequest) (container_id : String)
    (request : HttpRequest) : String → List HttpRequest :=
  fun k => if k = container_id then pushTrim (requests container_id) request else requests k

/-- A container as returned by `DockerService::list_containers` (only the
fields `find_container_for_packet` reads). -/
structure ContainerInfo where
  id : String
  name : String
  deriving DecidableEq

/-- Outcome of `tokio::time::timeout(5s, docker_service.list_containers())`:
the call may exceed the 5-second budget, fail, or return a container list. -/
inductive ListOutcome where
  | timeout
  | failure
  | success (containers : List ContainerInfo)
  deriving DecidableEq

/-- Result of one `find_container_for_packet` call: the attribution answer,
the container-IP cache afterwards, and whether the Docker API was consulted
(`list_containers` was called). -/
structure FindResult where
  result : Option String
  cache : List (String × List String)
  consulted_api : Bool
  deriving DecidableEq

/-- Model of `HashMap::insert` on the container-IP cache, modelled on an association
list: any previous binding of the key is replaced. -/
def cacheInsert (m : List (String × List String)) (k : String) (v : List String) :
    List (String × List String) :=
  m.filter (fun e => e.1 != k) ++ [(k, v)]

/-- Lookup in the container-IP cache. -/
def cacheGet (m : List (String × List String)) (k : String) : Option (List String) :=
  (m.find? (fun e => e.1 == k)).map (fun e => e.2)

/-- The cache-read scan of `find_container_for_packet`: the first cached
container one of whose IPs equals the packet's source or destination IP. -/
def cacheLookup (cache : List (String × List String)) (src_ip dst_ip : String) :
    Option String :=
  (cache.find? (fun e => e.2.contains src_ip || e.2.contains dst_ip)).map (fun e => e.1)

/-- The rebuild loop of `find_container_for_packet` after `cache_write.clear()`
(the `acc` parameter starts at `[]`): for each container, ask the network
oracle for its IP set (`none` models a failed
`get_container_network_info`); on success insert the IPs into the cache and
return the container's id as soon as one of its IPs equals the packet's
source or destination IP. -/
def rebuildLoop (netinfo : String → Option (List String)) (src_ip dst_ip : String) :
    List ContainerInfo → List (String × List String) → FindResult
  | [], acc => ⟨none, acc, true⟩
  | c :: rest, acc =>
    match netinfo c.id with
    | some ips =>
      let acc' := cacheInsert acc c.id ips
      if ips.contains src_ip || ips.contains dst_ip then ⟨some c.id, acc', true⟩
      else rebuildLoop netinfo src_ip dst_ip rest acc'
    | none => rebuildLoop netinfo src_ip dst_ip rest acc

/-- The IP-extraction preamble shared by `find_container_for_packet`: length
check, SLL/Ethernet classification, and the two dotted-quad addresses. -/
def packetIps (data : List Nat) : Option (String × String) :=
  if data.length < 34 then none
  else
    let is_sll := data.getD 0 0 == 0 && data.getD 1 0 == 0
    let src_ip_offset := if is_sll then 28 else 26
    let dst_ip_offset := if is_sll then 32 else 30
    if data.length < dst_ip_offset + 4 then none
    else some (ipString data src_ip_offset, ipString data dst_ip_offset)

/-- Embedding of `find_container_for_packet`: extract the packet's IPs, skip loopback
traffic, try the cache, and on a miss consult the Docker API under the
5-second timeout; on a successful non-empty enumeration clear and rebuild the
cache while scanning for a match. -/
def find_container_for_packet (data : List Nat) (cache : List (String × List String))
    (list_outcome : ListOutcome) (netinfo : String → Option (List String)) : FindResult :=
  match packetIps data with
  | none => ⟨none, cache, false⟩
  | some (src_ip, dst_ip) =>
    if src_ip == "127.0.0.1" || dst_ip == "127.0.0.1" then ⟨none, cache, false⟩
    else
      match cacheLookup cache src_ip dst_ip with
      | some container_id => ⟨some container_id, cache, false⟩
      | none =>
        match list_outcome with
        | .timeout => ⟨none, cache, true⟩
        | .failure => ⟨none, cache, true⟩
        | .success containers =>
          if containers.isEmpty then ⟨none, cache, true⟩
          else rebuildLoop netinfo src_ip dst_ip containers []

/-- The containers the rebuild loop actually visits: the whole fetched list,
or the prefix up to and including the first container with a matching IP. -/
def visitedContainers (netinfo : String → Option (List String)) (src_ip dst_ip : String) :
    List ContainerInfo → List ContainerInfo
  | [] => []
  | c :: rest =>
    match netinfo c.id with
    | some ips =>
      if ips.contains src_ip || ips.contains dst_ip then [c]
      else c :: visitedContainers netinfo src_ip dst_ip rest
    | none => c :: visitedContainers netinfo src_ip dst_ip rest

/-! Concrete Ethernet-framed IPv4/TCP frames used as evaluation inputs. -/

/-- A 14-byte Ethernet header whose first two bytes are not both zero (so the
decoder classifies the frame as Ethernet). -/
def ethHeader : List Nat := [1, 0, 0, 0, 0, 0, 0, 0, 0, 0, 0, 0, 8, 0]

/-- An Ethernet frame around a 20-byte IPv4 header (protocol 6 = TCP) and a
20-byte TCP header (data-offset nibble 5) with the given addresses and port
bytes, followed by a one-byte payload. -/
def ipv4TcpFrame (srcIp dstIp : List Nat) (sHi sLo dHi dLo : Nat) : List Nat :=
  ethHeader ++ ([69, 0, 0, 0, 0, 0, 0, 0, 64, 6, 0, 0] ++ srcIp ++ dstIp) ++
    ([sHi, sLo, dHi, dLo] ++ [0, 0, 0, 0, 0, 0, 0, 0, 80, 0, 0, 0, 0, 0, 0, 0] ++ [71])

/-- A 16-byte all-zero SLL header (packet-type field `0x00 0x00`). -/
def sllHeaderW : List Nat := [0, 0, 0, 0, 0, 0, 0, 0, 0, 0, 0, 0, 0, 0, 0, 0]

/-- A bare IPv4/TCP packet: 20-byte IP header (protocol 6, 10.0.0.1 →
10.0.0.2), 20-byte TCP header (port 51000 → 80), one payload byte. -/
def ipPacketW : List Nat :=
  ([69, 0, 0, 0, 0, 0, 0, 0, 64, 6, 0, 0] ++ [10, 0, 0, 1] ++ [10, 0, 0, 2]) ++
    ([199, 56, 0, 80] ++ [0, 0, 0, 0, 0, 0, 0, 0, 80, 0, 0, 0, 0, 0, 0, 0] ++ [71])

/-- An entry stamped at time 0, aged exactly 30 seconds at call time 30000. -/
def c5Entry : PendingRequest :=
  { container_id := "cid0", container_name := "cname0", method := "GET",
    endpoint := "/old", request_timestamp := 0 }

/-- The pending table holding only `c5Entry` under key `"conn0"`. -/
def c5Map : PendingMap := fun k => if k = "conn0" then some c5Entry else none

/-- A concrete record family for evaluating the buffer bound. -/
def c8Record (i : Nat) : HttpRequest :=
  { container_id := "c8c", container_name := "c8n", endpoint := s!"/e{i}",
    method := "GET", http_status := 200, response_time_ms := 0,
    timestamp := Int.ofNat i }

/-- A concrete Ethernet frame from 10.0.0.1:51000 to 10.0.0.2:80. -/
def dataW : List Nat := ipv4TcpFrame [10, 0, 0, 1] [10, 0, 0, 2] 199 56 0 80

/-- A concrete Ethernet frame whose source IP is the loopback address. -/
def dataLoopW : List Nat := ipv4TcpFrame [127, 0, 0, 1] [10, 0, 0, 2] 199 56 0 80

/-- A one-container fleet for the attribution witnesses. -/
def containersW : List ContainerInfo := [{ id := "cid1", name := "web-1" }]

/-- Network-inspection oracle: container `cid1` owns IP 10.0.0.1. -/
def netinfoW : String → Option (List String) :=
  fun i => if i = "cid1" then some ["10.0.0.1"] else none

/-- A pending request whose attribution was unknown at capture time. -/
def pendingUnknownW : PendingRequest :=
  { container_id := "unknown", container_name := "unknown", method := "GET",
    endpoint := "/health", request_timestamp := 1000 }

/-- The pending table holding only `pendingUnknownW` under key `"connW"`. -/
def pendingMapW : PendingMap :=
  fun k => if k = "connW" then some pendingUnknownW else none

/-- A pending request with a concrete container identity. -/
def pendingConcreteW : PendingRequest :=
  { container_id := "cidA", container_name := "nameA", method := "POST",
    endpoint := "/submit", request_timestamp := 500 }

/-- The pending table holding only `pendingConcreteW` under key `"connW2"`. -/
def pendingMapW2 : PendingMap :=
  fun k => if k = "connW2" then some pendingConcreteW else none

/-- C1: the connection key of `extract_connection_info` is NOT symmetric for
every valid address/port pair: the source orders the two endpoints by port
alone (`src_port < dst_port`), so the two directions of a connection whose
endpoints share one port number — here `10.0.0.1:80 ↔ 10.0.0.2:80` — get two
different keys, contradicting the source's own comment ("bidirectional — same
connection regardless of direction") and the spec's symmetry invariant. -/
theorem c1_equal_ports_break_key_symmetry :
    (extract_connection_info (ipv4TcpFrame [10, 0, 0, 1] [10, 0, 0, 2] 0 80 0 80)).map
        (fun r => r.1) = some "10.0.0.2:80:10.0.0.1:80" ∧
    (extract_connection_info (ipv4TcpFrame [10, 0, 0, 2] [10, 0, 0, 1] 0 80 0 80)).map
        (fun r => r.1) = some "10.0.0.1:80:10.0.0.2:80" ∧
    ("10.0.0.2:80:10.0.0.1:80" : String) ≠ "10.0.0.1:80:10.0.0.2:80" := by
  refine ⟨?_, ?_, ?_⟩ <;> decide

/-! Helper lemmas about the identity-healing step. -/

theorem substitute_identity_of_concrete (p : PendingRequest) (a b : String)
    (h : p.container_id ≠ "unknown") : substitute_identity p a b = p := by
  simp [substitute_identity, h]

theorem substitute_identity_timestamp (p : PendingRequest) (a b : String) :
    (substitute_identity p a b).request_timestamp = p.request_timestamp := by
  unfold substitute_identity
  split <;> rfl

theorem substitute_identity_endpoint (p : PendingRequest) (a b : String) :
    (substitute_identity p a b).endpoint = p.endpoint := by
  unfold substitute_identity
  split <;> rfl

/-- C5: counterexample to the claim as stated.  The entry under `"conn0"` has
age exactly 30 seconds at the time of the call (`30000 - 0 = 30000` ms), so
its age does not exceed 30 seconds, yet the sweep inside
`handle_http_request` deletes it. -/
theorem c5_exact_thirty_seconds_swept :
    (handle_http_request c5Map 30000 "conn1" "cid1" "cname1" "GET" "/new") "conn0" = none ∧
    ¬ ((30000 : Int) - c5Entry.request_timestamp > 30000) := by
  constructor
  · decide
  · decide

/-- C5 (amended): every `handle_http_request` call removes exactly those
pending entries whose age at the call is at least 30 seconds (it keeps an
entry iff `now - request_timestamp < 30000` ms), then inserts a fresh entry
for the given key stamped `now`, overwriting any prior entry; hence of two
requests on the same key before any response only the second remains
matchable. -/
theorem c5_sweep_at_least_thirty_then_overwrite (m : PendingMap) (now : Int)
    (key cid cname meth path : String) :
    (∀ k, handle_http_request m now key cid cname meth path k =
      if k = key then
        some { container_id := cid, container_name := cname, method := meth,
               endpoint := path, request_timestamp := now }
      else
        match m k with
        | some req => if now - req.request_timestamp < 30000 then some req else none
        | none => none) ∧
    ∀ (now1 now2 : Int) (cid1 cname1 meth1 path1 cid2 cname2 meth2 path2 : String),
      handle_http_request (handle_http_request m now1 key cid1 cname1 meth1 path1)
          now2 key cid2 cname2 meth2 path2 key =
        some { container_id := cid2, container_name := cname2, method := meth2,
               endpoint := path2, request_timestamp := now2 } := by
  constructor
  · intro k
    by_cases hk : k = key
    · simp [handle_http_request, hk]
    · simp only [handle_http_request, if_neg hk]
      cases m k with
      | none => rfl
      | some req =>
        show (if req.request_timestamp > now - 30000 then some req else none) =
          if now - req.request_timestamp < 30000 then some req else none
        by_cases h : now - req.request_timestamp < 30000
        · rw [if_pos (show req.request_timestamp > now - 30000 by omega), if_pos h]
        · rw [if_neg (show ¬ req.request_timestamp > now - 30000 by omega), if_neg h]
  · intro now1 now2 cid1 cname1 meth1 path1 cid2 cname2 meth2 path2
    simp [handle_http_request]

/-- C3: when a response finds a pending request, an `"unknown"` pending
identity is healed by a concrete response-side identity (the stored record
then carries the response's container id and name), and a record is handed to
storage if and only if the container identity after the substitution step is
not `"unknown"`; otherwise nothing is stored anywhere. -/
theorem c3_identity_healing_and_storage_gate (m : PendingMap) (now : Int)
    (key rcid rcname : String) (sc : Option Nat) (p : PendingRequest)
    (hp : m key = some p) :
    (p.container_id = "unknown" → rcid ≠ "unknown" →
      ∃ r, (handle_http_response m now key rcid rcname sc).stored = some (rcid, r) ∧
        r.container_id = rcid ∧ r.container_name = rcname) ∧
    ((handle_http_response m now key rcid rcname sc).stored.isSome ↔
      (substitute_identity p rcid rcname).container_id ≠ "unknown") := by
  simp only [handle_http_response, hp]
  constructor
  · intro hu hr
    have hq : substitute_identity p rcid rcname =
        { p with container_id := rcid, container_name := rcname } := by
      simp [substitute_identity, hu, hr]
    rw [hq]
    by_cases hn : rcname = "unknown" <;> simp [hr, hn]
  · by_cases hq : (substitute_identity p rcid rcname).container_id = "unknown"
    · rw [hq]
      have hpu : p.container_id = "unknown" := by
        by_contra hpc
        rw [substitute_identity_of_concrete p rcid rcname hpc] at hq
        exact hpc hq
      have hru : rcid = "unknown" := by
        by_contra hrc
        have : substitute_identity p rcid rcname =
            { p with container_id := rcid, container_name := rcname } := by
          simp [substitute_identity, hpu, hrc]
        rw [this] at hq
        exact hrc hq
      simp [hru]
    · simp [hq]

/-- C4: a response handled at time `t1` against an entry still pending with
request time `t0` yields exactly one constructed `CapturedHttpRequest`: its
`timestamp` is the request time `t0` (not `t1`), its `response_time_ms` is
`t1 - t0` clamped to be nonnegative, and the entry is consumed, so handling a
second response on the same key produces no further record. -/
theorem c4_one_record_request_timestamp_clamped_latency (m : PendingMap)
    (t1 t2 : Int) (key rcid rcname rcid2 rcname2 : String) (sc sc2 : Option Nat)
    (p : PendingRequest) (hp : m key = some p) :
    ∃ r, (handle_http_response m t1 key rcid rcname sc).constructed = some r ∧
      r.timestamp = p.request_timestamp ∧
      r.response_time_ms = max (t1 - p.request_timestamp) 0 ∧
      0 ≤ r.response_time_ms ∧
      (handle_http_response (handle_http_response m t1 key rcid rcname sc).pending_after
          t2 key rcid2 rcname2 sc2).constructed = none := by
  simp only [handle_http_response, hp]
  refine ⟨_, rfl, ?_, ?_, ?_, ?_⟩
  · simp [substitute_identity_timestamp]
  · simp [substitute_identity_timestamp]
  · exact le_max_right _ _
  · simp [handle_http_response]

/-- C10: a matched response whose parsed status line carries no status code
still yields a stored record when the pending identity is concrete, and that
record's `http_status` is the default 200. -/
theorem c10_missing_status_defaults_to_200 (m : PendingMap) (now : Int)
    (key rcid rcname : String) (p : PendingRequest) (hp : m key = some p)
    (hcid : p.container_id ≠ "unknown") :
    ∃ r, (handle_http_response m now key rcid rcname none).stored =
        some (p.container_id, r) ∧ r.http_status = 200 := by
  simp only [handle_http_response, hp, substitute_identity_of_concrete p rcid rcname hcid]
  simp [hcid]

/-! Result-sink buffer bound (claim about `store_request`). -/

theorem foldl_pushTrim_eq_drop (rs : List HttpRequest) :
    rs.foldl pushTrim [] = rs.drop (rs.length - 1000) := by
  induction rs using List.reverseRecOn with
  | nil => rfl
  | append_singleton l a ih =>
    rw [List.foldl_append, List.foldl_cons, List.foldl_nil, ih]
    unfold pushTrim
    by_cases h : l.length < 1000
    · have h0 : l.length - 1000 = 0 := by omega
      have h1 : (l ++ [a]).length - 1000 = 0 := by
        simp only [List.length_append, List.length_cons, List.length_nil]
        omega
      rw [h0, h1, List.drop_zero, List.drop_zero,
        if_neg (by
          simp only [List.length_append, List.length_cons, List.length_nil]
          omega)]
    · have hne : l.drop (l.length - 1000) ≠ [] := by
        intro he
        have hl := congrArg List.length he
        simp only [List.length_drop, List.length_nil] at hl
        omega
      rw [if_pos (by
          simp only [List.length_append, List.length_drop, List.length_cons,
            List.length_nil]
          omega),
        List.tail_append_of_ne_nil hne, List.tail_drop,
        List.drop_append_of_le_length (by
          simp only [List.length_append, List.length_cons, List.length_nil]
          omega)]
      have harith : l.length - 1000 + 1 = (l ++ [a]).length - 1000 := by
        simp only [List.length_append, List.length_cons, List.length_nil]
        omega
      rw [harith]

theorem store_request_length_le (mp : String → List HttpRequest) (cid : String)
    (r : HttpRequest) (h : ∀ c, (mp c).length ≤ 1000) :
    ∀ c, (store_request mp cid r c).length ≤ 1000 := by
  intro c
  unfold store_request
  by_cases hc : c = cid
  · rw [if_pos hc]
    unfold pushTrim
    by_cases hl : (mp cid ++ [r]).length > 1000
    · rw [if_pos hl]
      have hcid := h cid
      simp [List.length_tail]
      omega
    · rw [if_neg hl]
      omega
  · rw [if_neg hc]
    exact h c

theorem foldl_store_request_le (ops : List (String × HttpRequest)) :
    ∀ (mp : String → List HttpRequest), (∀ c, (mp c).length ≤ 1000) →
      ∀ c, ((ops.foldl (fun mp op => store_request mp op.1 op.2) mp) c).length ≤ 1000 := by
  induction ops with
  | nil => exact fun mp h c => h c
  | cons op rest ih =>
    exact fun mp h c => ih _ (store_request_length_le mp op.1 op.2 h) c

/-- C8: the per-container in-memory buffer maintained by `store_request`
never exceeds 1000 records — after any sequence of calls starting from the
empty store every container's buffer has length at most 1000 — and a
container receiving 1005 sequential records keeps exactly the last 1000 in
insertion order (the oldest five are dropped). -/
theorem c8_buffer_capacity_1000_drop_oldest :
    (∀ (ops : List (String × HttpRequest)) (cid : String),
      ((ops.foldl (fun mp op => store_request mp op.1 op.2) (fun _ => [])) cid).length
        ≤ 1000) ∧
    ∀ rs : List HttpRequest, rs.length = 1005 → rs.foldl pushTrim [] = rs.drop 5 := by
  constructor
  · intro ops cid
    exact foldl_store_request_le ops (fun _ => []) (fun _ => by simp) cid
  · intro rs h
    rw [foldl_pushTrim_eq_drop, h]

/-- C8 witness: 1005 sequential records leave exactly the last 1000. -/
theorem c8_buffer_capacity_witness :
    ((List.range 1005).map c8Record).foldl pushTrim [] =
      ((List.range 1005).map c8Record).drop 5 :=
  c8_buffer_capacity_1000_drop_oldest.2 _ (by simp)

/-! Association-list cache lemmas. -/

theorem find?_filter_ne (m : List (String × List String)) (k k2 : String) (h : k2 ≠ k) :
    (m.filter (fun e => e.1 != k)).find? (fun e => e.1 == k2) =
      m.find? (fun e => e.1 == k2) := by
  induction m with
  | nil => rfl
  | cons e rest ih =>
    by_cases he : e.1 = k2
    · have hk : (e.1 != k) = true := by simp [he, h]
      simp [List.filter_cons, hk, List.find?_cons, he, h]
    · by_cases hek : e.1 = k
      · have hk : (e.1 != k) = false := by simp [hek]
        simp only [List.filter_cons, hk, Bool.false_eq_true, if_false, ih,
          List.find?_cons]
        have : (e.1 == k2) = false := by simp [he]
        rw [this]
      · have hk : (e.1 != k) = true := by simp [hek]
        have hp : (e.1 == k2) = false := by simp [he]
        simp [List.filter_cons, hk, List.find?_cons, hp, ih]

theorem cacheGet_cacheInsert_self (m : List (String × List String)) (k : String)
    (v : List String) : cacheGet (cacheInsert m k v) k = some v := by
  unfold cacheGet cacheInsert
  rw [List.find?_append]
  have hnone : (m.filter (fun e => e.1 != k)).find? (fun e => e.1 == k) = none := by
    rw [List.find?_eq_none]
    intro e he
    have := List.of_mem_filter he
    simp at this ⊢
    exact this
  rw [hnone]
  simp [List.find?_cons]

theorem cacheGet_cacheInsert_ne (m : List (String × List String)) (k k2 : String)
    (v : List String) (h : k2 ≠ k) :
    cacheGet (cacheInsert m k v) k2 = cacheGet m k2 := by
  unfold cacheGet cacheInsert
  rw [List.find?_append, find?_filter_ne m k k2 h]
  cases hf : m.find? (fun e => e.1 == k2) with
  | some e => rfl
  | none =>
    have hkk : (k == k2) = false := by
      simp only [beq_eq_false_iff_ne, ne_eq]
      intro he
      exact h he.symm
    simp [List.find?_cons, hkk]

/-! Rebuild-loop lemmas for `find_container_for_packet`. -/

theorem rebuildLoop_cache (ni : String → Option (List String)) (s d : String) :
    ∀ (cs : List ContainerInfo) (acc : List (String × List String)),
      (rebuildLoop ni s d cs acc).cache =
        (visitedContainers ni s d cs).foldl
          (fun a c => match ni c.id with
            | some ips => cacheInsert a c.id ips
            | none => a) acc := by
  intro cs
  induction cs with
  | nil => intro acc; rfl
  | cons c rest ih =>
    intro acc
    cases hni : ni c.id with
    | none =>
      simp only [rebuildLoop, visitedContainers, hni, List.foldl_cons]
      exact ih acc
    | some ips =>
      cases hb : (ips.contains s || ips.contains d) with
      | true =>
        simp only [rebuildLoop, visitedContainers, hni, hb, if_true,
          List.foldl_cons, List.foldl_nil]
      | false =>
        simp only [rebuildLoop, visitedContainers, hni, hb, Bool.false_eq_true,
          if_false, List.foldl_cons]
        exact ih _

theorem rebuildLoop_cache_complete (ni : String → Option (List String)) (s d : String) :
    ∀ (cs : List ContainerInfo) (acc : List (String × List String))
      (c : ContainerInfo) (ips : List String), ni c.id = some ips →
      (c ∈ visitedContainers ni s d cs ∨ cacheGet acc c.id = some ips) →
      cacheGet (rebuildLoop ni s d cs acc).cache c.id = some ips := by
  intro cs
  induction cs with
  | nil =>
    intro acc c ips hni hmem
    rcases hmem with hmem | hacc
    · simp [visitedContainers] at hmem
    · exact hacc
  | cons c0 rest ih =>
    intro acc c ips hni hmem
    cases hni0 : ni c0.id with
    | none =>
      simp only [rebuildLoop, hni0]
      refine ih acc c ips hni ?_
      rcases hmem with hmem | hacc
      · simp only [visitedContainers, hni0, List.mem_cons] at hmem
        rcases hmem with rfl | hmem
        · rw [hni] at hni0; cases hni0
        · exact Or.inl hmem
      · exact Or.inr hacc
    | some ips0 =>
      cases hb : (ips0.contains s || ips0.contains d) with
      | true =>
        simp only [rebuildLoop, hni0, hb, if_true]
        rcases hmem with hmem | hacc
        · simp only [visitedContainers, hni0, hb, if_true,
            List.mem_singleton] at hmem
          subst hmem
          rw [hni0] at hni
          injection hni with hv
          subst hv
          exact cacheGet_cacheInsert_self _ _ _
        · by_cases hk : c.id = c0.id
          · rw [hk]
            rw [hk, hni0] at hni
            injection hni with hv
            subst hv
            exact cacheGet_cacheInsert_self _ _ _
          · rw [cacheGet_cacheInsert_ne _ _ _ _ hk]
            exact hacc
      | false =>
        simp only [rebuildLoop, hni0, hb, Bool.false_eq_true, if_false]
        refine ih _ c ips hni ?_
        rcases hmem with hmem | hacc
        · simp only [visitedContainers, hni0, hb, Bool.false_eq_true, if_false,
            List.mem_cons] at hmem
          rcases hmem with rfl | hmem
          · rw [hni0] at hni
            injection hni with hv
            subst hv
            exact Or.inr (cacheGet_cacheInsert_self _ _ _)
          · exact Or.inl hmem
        · by_cases hk : c.id = c0.id
          · rw [hk, hni0] at hni
            injection hni with hv
            subst hv
            rw [← hk]
            exact Or.inr (by rw [hk]; exact cacheGet_cacheInsert_self _ _ _)
          · exact Or.inr (by rw [cacheGet_cacheInsert_ne _ _ _ _ hk]; exact hacc)

/-- C2: on a cache miss with a successful, non-empty container enumeration,
`find_container_for_packet` clears the cache and rebuilds it purely from the
just-fetched data — the resulting cache is `rebuildLoop` started from the
empty cache, independent of the pre-call cache — and afterwards it holds the
IP set of every container whose network inspection was performed and
succeeded. -/
theorem c2_cache_cleared_and_rebuilt_on_miss (data : List Nat)
    (cache : List (String × List String)) (containers : List ContainerInfo)
    (netinfo : String → Option (List String)) (s d : String)
    (hip : packetIps data = some (s, d))
    (hs : s ≠ "127.0.0.1") (hd : d ≠ "127.0.0.1")
    (hmiss : cacheLookup cache s d = none)
    (hne : containers ≠ []) :
    (find_container_for_packet data cache (ListOutcome.success containers) netinfo).cache =
      (rebuildLoop netinfo s d containers []).cache ∧
    ∀ c ∈ visitedContainers netinfo s d containers, ∀ ips, netinfo c.id = some ips →
      cacheGet ((find_container_for_packet data cache (ListOutcome.success containers)
        netinfo).cache) c.id = some ips := by
  have hfind : find_container_for_packet data cache (ListOutcome.success containers) netinfo
      = rebuildLoop netinfo s d containers [] := by
    simp [find_container_for_packet, hip, beq_iff_eq, hs, hd, hmiss,
      List.isEmpty_iff, hne]
  rw [hfind]
  exact ⟨rfl, fun c hc ips hni =>
    rebuildLoop_cache_complete netinfo s d containers [] c ips hni (Or.inl hc)⟩

/-- C7: on a cache miss, if the Docker container enumeration times out (5s
budget exceeded) or fails, `find_container_for_packet` returns no attribution
and the container-IP cache is exactly what it was before the call. -/
theorem c7_enumeration_failure_leaves_cache_untouched (data : List Nat)
    (cache : List (String × List String)) (list_outcome : ListOutcome)
    (netinfo : String → Option (List String)) (s d : String)
    (hip : packetIps data = some (s, d))
    (hs : s ≠ "127.0.0.1") (hd : d ≠ "127.0.0.1")
    (hmiss : cacheLookup cache s d = none)
    (hfail : list_outcome = ListOutcome.timeout ∨ list_outcome = ListOutcome.failure) :
    find_container_for_packet data cache list_outcome netinfo = ⟨none, cache, true⟩ := by
  rcases hfail with h | h <;>
    simp [find_container_for_packet, hip, beq_iff_eq, hs, hd, hmiss, h]

/-- C9: a packet whose extracted source or destination IP is `127.0.0.1` is
never attributed: `find_container_for_packet` returns `none` without
consulting the Docker API and without touching the cache; and a
request/response pair processed with the resulting `"unknown"` identity on
both sides stores no record. -/
theorem c9_loopback_skipped_and_never_stored (data : List Nat)
    (cache : List (String × List String)) (list_outcome : ListOutcome)
    (netinfo : String → Option (List String)) (s d : String)
    (hip : packetIps data = some (s, d))
    (hloop : s = "127.0.0.1" ∨ d = "127.0.0.1") :
    find_container_for_packet data cache list_outcome netinfo = ⟨none, cache, false⟩ ∧
    ∀ (m : PendingMap) (t0 t1 : Int) (key meth path : String) (sc : Option Nat),
      (handle_http_response
        (handle_http_request m t0 key "unknown" "unknown" meth path) t1 key
        "unknown" "unknown" sc).stored = none := by
  constructor
  · rcases hloop with h | h <;> simp [find_container_for_packet, hip, h]
  · intro m t0 t1 key meth path sc
    have hm : (handle_http_request m t0 key "unknown" "unknown" meth path) key =
        some { container_id := "unknown", container_name := "unknown", method := meth,
               endpoint := path, request_timestamp := t0 } := by
      simp [handle_http_request]
    simp only [handle_http_response, hm]
    simp [substitute_identity]

/-- C2 witness at a concrete packet, empty cache and one-container fleet. -/
theorem c2_cache_rebuild_witness :
    (find_container_for_packet dataW [] (ListOutcome.success containersW) netinfoW).cache =
      (rebuildLoop netinfoW "10.0.0.1" "10.0.0.2" containersW []).cache :=
  (c2_cache_cleared_and_rebuilt_on_miss dataW [] containersW netinfoW "10.0.0.1"
    "10.0.0.2" (by decide) (by decide) (by decide) rfl (by decide)).1

/-- C3 witness: a concrete pending entry with unknown identity healed by the
response side. -/
theorem c3_identity_healing_witness :
    ∃ r, (handle_http_response pendingMapW 1012 "connW" "cid9" "web-9" (some 200)).stored =
        some ("cid9", r) ∧ r.container_id = "cid9" ∧ r.container_name = "web-9" :=
  (c3_identity_healing_and_storage_gate pendingMapW 1012 "connW" "cid9" "web-9"
    (some 200) pendingUnknownW (by decide)).1 (by decide) (by decide)

/-- C4 witness: request at t0 = 1000, response at t1 = 1012. -/
theorem c4_latency_witness :
    ∃ r, (handle_http_response pendingMapW 1012 "connW" "cid9" "web-9"
        (some 200)).constructed = some r ∧
      r.timestamp = pendingUnknownW.request_timestamp ∧
      r.response_time_ms = max (1012 - pendingUnknownW.request_timestamp) 0 ∧
      0 ≤ r.response_time_ms ∧
      (handle_http_response (handle_http_response pendingMapW 1012 "connW" "cid9" "web-9"
        (some 200)).pending_after 2000 "connW" "cidX" "nX" (some 404)).constructed = none :=
  c4_one_record_request_timestamp_clamped_latency pendingMapW 1012 2000 "connW" "cid9"
    "web-9" "cidX" "nX" (some 200) (some 404) pendingUnknownW (by decide)

/-- C7 witness: a timeout on a miss leaves a concrete non-empty cache as is. -/
theorem c7_timeout_witness :
    find_container_for_packet dataW [("cidZ", ["10.9.9.9"])] ListOutcome.timeout netinfoW =
      ⟨none, [("cidZ", ["10.9.9.9"])], true⟩ :=
  c7_enumeration_failure_leaves_cache_untouched dataW [("cidZ", ["10.9.9.9"])]
    ListOutcome.timeout netinfoW "10.0.0.1" "10.0.0.2" (by decide) (by decide) (by decide)
    (by decide) (Or.inl rfl)

/-- C9 witness: a packet from `127.0.0.1` is skipped with the cache intact. -/
theorem c9_loopback_witness :
    find_container_for_packet dataLoopW [("cidZ", ["10.9.9.9"])] ListOutcome.timeout
      netinfoW = ⟨none, [("cidZ", ["10.9.9.9"])], false⟩ :=
  (c9_loopback_skipped_and_never_stored dataLoopW [("cidZ", ["10.9.9.9"])]
    ListOutcome.timeout netinfoW "127.0.0.1" "10.0.0.2" (by decide) (Or.inl rfl)).1

/-- C10 witness: a matched response with no parsed status code stores a
record with status 200. -/
theorem c10_default_status_witness :
    ∃ r, (handle_http_response pendingMapW2 800 "connW2" "rcid" "rname" none).stored =
        some ("cidA", r) ∧ r.http_status = 200 :=
  c10_missing_status_defaults_to_200 pendingMapW2 800 "connW2" "rcid" "rname"
    pendingConcreteW (by decide) (by decide)

/-! Link-layer agnosticism: the decoder applied behind a link header of
length `n` agrees with the decoder applied to the bare IP packet. -/

theorem extractWithOffsets_append (link ip : List Nat) (n a b c : Nat)
    (hn : link.length = n) (ha : a = n + 9) (hb : b = n + 12) (hc : c = n + 16) :
    extractWithOffsets (link ++ ip) n a b c = extractWithOffsets ip 0 9 12 16 := by
  subst ha hb hc
  have hlen : (link ++ ip).length = n + ip.length := by simp [hn]
  have hg : ∀ k d, (link ++ ip).getD (n + k) d = ip.getD k d := by
    intro k d
    rw [List.getD_append_right _ _ _ _ (by omega)]
    congr 1
    omega
  have hdrop : ∀ m, (link ++ ip).drop (n + m) = ip.drop m := by
    intro m
    rw [← hn]
    exact List.drop_append m
  unfold extractWithOffsets
  simp only [ipString, hlen, Nat.add_assoc, Nat.zero_add, hg, hdrop,
    add_lt_add_iff_left]

theorem extract_sll_append (link ip : List Nat) (hn : link.length = 16)
    (h0 : link.getD 0 0 = 0) (h1 : link.getD 1 0 = 0) :
    extract_connection_info (link ++ ip) = extractWithOffsets ip 0 9 12 16 := by
  have hlen : (link ++ ip).length = 16 + ip.length := by simp [hn]
  by_cases h18 : ip.length < 18
  · have hL : extract_connection_info (link ++ ip) = none := by
      unfold extract_connection_info
      rw [if_pos (by omega)]
    have hR : extractWithOffsets ip 0 9 12 16 = none := by
      unfold extractWithOffsets
      rw [if_pos (by omega)]
    rw [hL, hR]
  · have hsll : ((link ++ ip).getD 0 0 == 0 && (link ++ ip).getD 1 0 == 0) = true := by
      rw [List.getD_append _ _ _ 0 (by omega), List.getD_append _ _ _ 1 (by omega),
        h0, h1]
      rfl
    simp only [extract_connection_info]
    rw [if_neg (show ¬ (link ++ ip).length < 34 by omega), hsll, if_pos rfl]
    exact extractWithOffsets_append link ip 16 25 28 32 hn (by norm_num) (by norm_num)
      (by norm_num)

theorem extract_eth_append (link ip : List Nat) (hn : link.length = 14)
    (hne : ¬ (link.getD 0 0 = 0 ∧ link.getD 1 0 = 0)) :
    extract_connection_info (link ++ ip) = extractWithOffsets ip 0 9 12 16 := by
  have hlen : (link ++ ip).length = 14 + ip.length := by simp [hn]
  by_cases h20 : ip.length < 20
  · have hL : extract_connection_info (link ++ ip) = none := by
      unfold extract_connection_info
      rw [if_pos (by omega)]
    have hR : extractWithOffsets ip 0 9 12 16 = none := by
      unfold extractWithOffsets
      rw [if_pos (by omega)]
    rw [hL, hR]
  · have heth : ((link ++ ip).getD 0 0 == 0 && (link ++ ip).getD 1 0 == 0) = false := by
      rw [List.getD_append _ _ _ 0 (by omega), List.getD_append _ _ _ 1 (by omega)]
      by_cases hA : link.getD 0 0 = 0
      · have hB : link.getD 1 0 ≠ 0 := fun hB => hne ⟨hA, hB⟩
        rw [beq_eq_false_iff_ne.mpr hB, Bool.and_false]
      · rw [beq_eq_false_iff_ne.mpr hA, Bool.false_and]
    simp only [extract_connection_info]
    rw [if_neg (show ¬ (link ++ ip).length < 34 by omega), heth,
      if_neg (by simp)]
    exact extractWithOffsets_append link ip 14 23 26 30 hn (by norm_num) (by norm_num)
      (by norm_num)

/-- C6: an SLL-style frame (16-byte link header starting `0x00 0x00`) and an
Ethernet frame (14-byte link header, first two bytes not both zero) wrapping
the same IPv4/TCP packet give identical `extract_connection_info` results:
same connection key, same payload slice, same direction hint. -/
theorem c6_sll_and_ethernet_frames_agree (sll eth ip : List Nat)
    (hsl : sll.length = 16) (h0 : sll.getD 0 0 = 0) (h1 : sll.getD 1 0 = 0)
    (hel : eth.length = 14) (hne : ¬ (eth.getD 0 0 = 0 ∧ eth.getD 1 0 = 0)) :
    extract_connection_info (sll ++ ip) = extract_connection_info (eth ++ ip) := by
  rw [extract_sll_append sll ip hsl h0 h1, extract_eth_append eth ip hel hne]

/-- C6 witness: the same IP/TCP packet behind an SLL header and behind an
Ethernet header decodes identically. -/
theorem c6_framing_witness :
    extract_connection_info (sllHeaderW ++ ipPacketW) =
      extract_connection_info (ethHeader ++ ipPacketW) :=
  c6_sll_and_ethernet_frames_agree sllHeaderW ethHeader ipPacketW (by decide) (by decide)
    (by decide) (by decide) (by decide)

end NetworkMonitor
